import Mathlib

/-!
Verification of the Conversation & Agent-Turn Orchestration core of the
Hackathon-II backend (phase-3/backend/src): conversation resolution,
message persistence, context-window assembly, and the turn orchestrator.

The relational store is shallowly embedded as a `DB` record holding the
`Conversation` and `Message` tables (the message table in storage order),
a server clock, and an id counter.  Timestamps are natural numbers; the
clock is strictly monotonic: every reading returns the current value and
advances it, so consecutive readings are strictly increasing.
-/

namespace HackathonChat

/-- A persisted chat message row.  The `Message` model file itself is not part
of the embedded sources; its fields are modelled from the spec data model:
opaque identity, owning conversation identifier, role, content, and a
server-assigned creation time. -/
structure Message where
  id : Nat
  conversation_id : Nat
  role : String
  content : String
  created_at : Nat
deriving DecidableEq, Repr

/-- A persisted conversation row.  The `Conversation` model file itself is not
part of the embedded sources; its fields are modelled from the spec data model:
opaque identity, owning user identifier, creation time, last-updated time. -/
structure Conversation where
  id : Nat
  user_id : Nat
  created_at : Nat
  updated_at : Nat
deriving DecidableEq, Repr

/-- The relational store: the two tables (messages kept in storage order, i.e.
insertion order), the server clock, and a counter supplying fresh row ids
(standing in for UUID generation). -/
structure DB where
  conversations : List Conversation
  messages : List Message
  clock : Nat
  nextId : Nat
deriving DecidableEq, Repr

/-- A fresh, empty store. -/
def emptyDB : DB := { conversations := [], messages := [], clock := 0, nextId := 0 }

/-- One reading of the server clock (`datetime.now(timezone.utc)` on the
Python side; modelled from the spec as a monotonic clock, which also covers
the server-assigned `created_at` default of the missing model files):
returns the current time and advances the clock, so two consecutive readings
are strictly increasing. -/
def now (db : DB) : Nat × DB := (db.clock, { db with clock := db.clock + 1 })

/-- Insert into a list that is sorted descending by `key` (helper for
embedding the SQL `ORDER BY ... DESC`). -/
def insertDescBy (key : α → Nat) (a : α) : List α → List α
  | [] => [a]
  | x :: xs => if key x < key a then a :: x :: xs else x :: insertDescBy key a xs

/-- Sort a list descending by `key`: the embedding of `ORDER BY key DESC`.
Row order among equal keys is unspecified in SQL; this sort fixes one. -/
def sortDescBy (key : α → Nat) : List α → List α
  | [] => []
  | x :: xs => insertDescBy key x (sortDescBy key xs)

/-- The query inside `get_or_create_conversation`:
`SELECT Conversation WHERE user_id == uid ORDER BY updated_at DESC`, then
`.first()`. -/
def selectConversation (db : DB) (uid : Nat) : Option Conversation :=
  (sortDescBy (fun c => c.updated_at)
    (db.conversations.filter (fun c => c.user_id == uid))).head?

/-- `services/conversations.py::get_or_create_conversation`: return the
user's conversation with the most recent `updated_at`, or create, persist and
return a new one (its timestamps coming from one clock reading, per the
model defaults). -/
def get_or_create_conversation (db : DB) (uid : Nat) : Conversation × DB :=
  match selectConversation db uid with
  | some conversation => (conversation, db)
  | none =>
    let t := (now db).1
    let db1 := (now db).2
    let conversation : Conversation :=
      { id := db1.nextId, user_id := uid, created_at := t, updated_at := t }
    (conversation,
      { db1 with
        conversations := db1.conversations ++ [conversation],
        nextId := db1.nextId + 1 })

/-- The `WHERE Message.conversation_id == cid` projection of the message
table, in storage order. -/
def messagesOf (db : DB) (cid : Nat) : List Message :=
  db.messages.filter (fun m => m.conversation_id == cid)

/-- `services/conversations.py::get_recent_messages`: select the
conversation's messages ordered by `created_at` descending, bounded by
`limit`, then reverse into chronological (oldest-first) order. -/
def get_recent_messages (db : DB) (cid : Nat) (limit : Nat := 50) : List Message :=
  ((sortDescBy (fun m => m.created_at) (messagesOf db cid)).take limit).reverse

/-- `services/conversations.py::store_message`: construct the new message
(its `created_at` being a clock reading, per the model default), look up the
owning conversation, bump its `updated_at` to a fresh clock reading when it
exists, and commit both changes together. -/
def store_message (db : DB) (cid : Nat) (role content : String) : Message × DB :=
  let t := (now db).1
  let db1 := (now db).2
  let message : Message :=
    { id := db1.nextId, conversation_id := cid, role := role,
      content := content, created_at := t }
  let db2 : DB := { db1 with nextId := db1.nextId + 1 }
  match db2.conversations.find? (fun c => c.id == cid) with
  | some _ =>
    let tb := (now db2).1
    let db3 := (now db2).2
    (message,
      { db3 with
        conversations := db3.conversations.map
          (fun c => if c.id == cid then { c with updated_at := tb } else c),
        messages := db3.messages ++ [message] })
  | none => (message, { db2 with messages := db2.messages ++ [message] })

/-- One `{role, content}` entry of the history handed to the agent. -/
structure RoleContent where
  role : String
  content : String
deriving DecidableEq, Repr

/-- The error taxonomy of the spec (§7). -/
inductive ErrorKind where
  | validationError
  | persistenceError
  | agentError
  | postAgentPersistenceError
deriving DecidableEq, Repr

/-- An exception reaching the API layer: its kind together with the message
text that Python's `str(e)` would render.  (The source types none of these;
an arbitrary `Exception` arrives at the handler.) -/
structure PyException where
  kind : ErrorKind
  msg : String
deriving DecidableEq, Repr

/-- Python's `str(e)` on an exception: the message text only, not the class. -/
def excStr (e : PyException) : String := e.msg

/-- The outcome of one turn of `process_user_message`: the returned assistant
message or the propagated exception, the resulting store, and the trace of
histories passed to `agent.process_message` (one entry per invocation). -/
structure TurnResult where
  result : Except PyException Message
  db : DB
  agentCalls : List (List RoleContent)
deriving Repr

/-- `services/chat.py::process_user_message`: resolve the conversation, store
the user message, build the history from the recent messages (default window,
50), invoke the agent once, and on success store and return the assistant
message.  The agent (`ChatAgent.process_message`) is the external gateway,
taken as a parameter; `.error` models a raised exception, which propagates
before the assistant message is stored. -/
def process_user_message (db : DB) (uid : Nat) (message_content : String)
    (agent : List RoleContent → Except PyException String) : TurnResult :=
  let conversation := (get_or_create_conversation db uid).1
  let db1 := (get_or_create_conversation db uid).2
  let db2 := (store_message db1 conversation.id "user" message_content).2
  let recent_messages := get_recent_messages db2 conversation.id 50
  let history := recent_messages.map (fun m => ⟨m.role, m.content⟩)
  match agent history with
  | .error e => { result := .error e, db := db2, agentCalls := [history] }
  | .ok response_content =>
    let assistant_message :=
      (store_message db2 conversation.id "assistant" response_content).1
    let db3 := (store_message db2 conversation.id "assistant" response_content).2
    { result := .ok assistant_message, db := db3, agentCalls := [history] }

/-- The emptiness test of `api/chat.py` (`not request.message.strip()`):
true exactly when every character of the message is whitespace, i.e. the
stripped message is empty. -/
def isBlank (s : String) : Bool := s.data.all Char.isWhitespace

/-- A FastAPI `HTTPException` as the caller sees it: status code and detail. -/
structure HTTPException where
  status_code : Nat
  detail : String
deriving DecidableEq, Repr

/-- The `except Exception as e` branch of `api/chat.py::chat`: every caught
exception is re-raised as HTTP 500 with `str(e)` as the detail. -/
def chatExceptBranch (e : PyException) : HTTPException :=
  { status_code := 500, detail := excStr e }

/-- `api/chat.py::chat` (POST /chat): reject blank input with HTTP 400 before
any state change; otherwise run the turn, returning the assistant message or
the HTTP 500 produced by the except branch. -/
def chat (db : DB) (uid : Nat) (message : String)
    (agent : List RoleContent → Except PyException String) :
    Except HTTPException Message × DB :=
  if isBlank message then
    (.error { status_code := 400, detail := "Message cannot be empty" }, db)
  else
    let tr := process_user_message db uid message agent
    match tr.result with
    | .ok m => (.ok m, tr.db)
    | .error e => (.error (chatExceptBranch e), tr.db)

/-- The read model returned by GET /conversations. -/
structure ConversationResponse where
  id : Nat
  messages : List Message
  updated_at : Nat
deriving DecidableEq, Repr

/-- `api/chat.py::get_conversation` (GET /conversations): resolve (or create)
the user's conversation and return it with its recent messages. -/
def get_conversation (db : DB) (uid : Nat) : ConversationResponse × DB :=
  let conversation := (get_or_create_conversation db uid).1
  let db1 := (get_or_create_conversation db uid).2
  let messages := get_recent_messages db1 conversation.id 50
  ({ id := conversation.id, messages := messages,
     updated_at := conversation.updated_at }, db1)

/-- Store well-formedness: message creation times strictly increase in
storage order, and every stored timestamp is in the clock's past.  This holds
for every store reachable from `emptyDB` by the embedded operations. -/
def DB.WF (db : DB) : Prop :=
  db.messages.Pairwise (fun a b => a.created_at < b.created_at) ∧
  ∀ m ∈ db.messages, m.created_at < db.clock

instance (db : DB) : Decidable db.WF := by
  unfold DB.WF; infer_instance

/-- The conversation a turn for `uid` resolves to (step 1 of the turn). -/
def turnConversation (db : DB) (uid : Nat) : Conversation :=
  (get_or_create_conversation db uid).1

/-- The store after step 2 of the turn: the user's message persisted into the
resolved conversation. -/
def dbAfterUserStore (db : DB) (uid : Nat) (content : String) : DB :=
  (store_message (get_or_create_conversation db uid).2
    (turnConversation db uid).id "user" content).2

/-- The user's message as persisted by step 2 of the turn. -/
def storedUserMessage (db : DB) (uid : Nat) (content : String) : Message :=
  (store_message (get_or_create_conversation db uid).2
    (turnConversation db uid).id "user" content).1

/-- The history handed to the Agent Gateway in the turn: the role/content
projection of the recent messages read back after the user message was
stored.  Definitionally equal to the history built inside
`process_user_message`. -/
def turnHistory (db : DB) (uid : Nat) (content : String) : List RoleContent :=
  (get_recent_messages (dbAfterUserStore db uid content)
    (turnConversation db uid).id 50).map (fun m => ⟨m.role, m.content⟩)

/-- A concrete store holding one conversation (id 0, user 7) and no messages. -/
def dbOneConv : DB :=
  { conversations := [{ id := 0, user_id := 7, created_at := 0, updated_at := 0 }],
    messages := [], clock := 1, nextId := 1 }

/-- A concrete store holding one conversation (id 0, user 7) and three stored
messages with creation times 1, 2, 3. -/
def dbThreeMsgs : DB :=
  { conversations := [{ id := 0, user_id := 7, created_at := 0, updated_at := 3 }],
    messages :=
      [{ id := 1, conversation_id := 0, role := "user", content := "a", created_at := 1 },
       { id := 2, conversation_id := 0, role := "assistant", content := "b", created_at := 2 },
       { id := 3, conversation_id := 0, role := "user", content := "c", created_at := 3 }],
    clock := 4, nextId := 4 }

/-! ### Helper lemmas about the embedded SQL ordering and the store -/

theorem length_insertDescBy (key : α → Nat) (a : α) (l : List α) :
    (insertDescBy key a l).length = l.length + 1 := by
  induction l with
  | nil => rfl
  | cons x xs ih =>
    unfold insertDescBy
    split
    · simp
    · simpa using ih

theorem length_sortDescBy (key : α → Nat) (l : List α) :
    (sortDescBy key l).length = l.length := by
  induction l with
  | nil => rfl
  | cons x xs ih =>
    unfold sortDescBy
    rw [length_insertDescBy, ih]
    rfl

theorem sortDescBy_eq_nil_iff (key : α → Nat) (l : List α) :
    sortDescBy key l = [] ↔ l = [] := by
  constructor
  · intro h
    have hl := length_sortDescBy key l
    rw [h] at hl
    exact List.length_eq_zero.mp hl.symm
  · rintro rfl
    rfl

theorem insertDescBy_bottom (key : α → Nat) (a : α) (l : List α)
    (h : ∀ x ∈ l, ¬ key x < key a) :
    insertDescBy key a l = l ++ [a] := by
  induction l with
  | nil => rfl
  | cons x xs ih =>
    unfold insertDescBy
    rw [if_neg (h x (List.mem_cons_self x xs))]
    rw [ih (fun y hy => h y (List.mem_cons_of_mem x hy))]
    rfl

theorem sortDescBy_of_pairwise_lt (key : α → Nat) (l : List α)
    (h : l.Pairwise (fun a b => key a < key b)) :
    sortDescBy key l = l.reverse := by
  induction l with
  | nil => rfl
  | cons x xs ih =>
    rw [List.pairwise_cons] at h
    unfold sortDescBy
    rw [ih h.2, insertDescBy_bottom]
    · simp
    · intro y hy
      have := h.1 y (List.mem_reverse.mp hy)
      omega

/-- On a store whose per-conversation messages are in ascending `created_at`
order, `get_recent_messages` is exactly the window of the most recent `limit`
messages in storage order (a suffix of the chronological list). -/
theorem get_recent_eq_drop (db : DB) (cid limit : Nat)
    (h : (messagesOf db cid).Pairwise (fun a b => a.created_at < b.created_at)) :
    get_recent_messages db cid limit
      = (messagesOf db cid).drop ((messagesOf db cid).length - limit) := by
  unfold get_recent_messages
  rw [sortDescBy_of_pairwise_lt _ _ h, ← List.rtake_eq_reverse_take_reverse]
  rfl

theorem get_or_create_found {db : DB} {uid : Nat} {c : Conversation}
    (h : selectConversation db uid = some c) :
    get_or_create_conversation db uid = (c, db) := by
  unfold get_or_create_conversation
  rw [h]

theorem get_or_create_none {db : DB} {uid : Nat}
    (h : selectConversation db uid = none) :
    get_or_create_conversation db uid =
      ({ id := db.nextId, user_id := uid, created_at := db.clock, updated_at := db.clock },
       { conversations :=
           db.conversations ++
             [{ id := db.nextId, user_id := uid, created_at := db.clock,
                updated_at := db.clock }],
         messages := db.messages, clock := db.clock + 1, nextId := db.nextId + 1 }) := by
  simp only [get_or_create_conversation, now]
  rw [h]

theorem store_message_found {db : DB} {cid : Nat} {c : Conversation} (role content : String)
    (h : db.conversations.find? (fun x => x.id == cid) = some c) :
    store_message db cid role content =
      ({ id := db.nextId, conversation_id := cid, role := role, content := content,
         created_at := db.clock },
       { conversations := db.conversations.map
           (fun x => if x.id == cid then { x with updated_at := db.clock + 1 } else x),
         messages := db.messages ++
           [{ id := db.nextId, conversation_id := cid, role := role, content := content,
              created_at := db.clock }],
         clock := db.clock + 2, nextId := db.nextId + 1 }) := by
  simp only [store_message, now]
  rw [h]

theorem store_message_not_found {db : DB} {cid : Nat} (role content : String)
    (h : db.conversations.find? (fun x => x.id == cid) = none) :
    store_message db cid role content =
      ({ id := db.nextId, conversation_id := cid, role := role, content := content,
         created_at := db.clock },
       { conversations := db.conversations,
         messages := db.messages ++
           [{ id := db.nextId, conversation_id := cid, role := role, content := content,
              created_at := db.clock }],
         clock := db.clock + 1, nextId := db.nextId + 1 }) := by
  simp only [store_message, now]
  rw [h]

/-- After `get_or_create_conversation`, the select inside it finds exactly the
conversation that was returned. -/
theorem selectConversation_after (db : DB) (uid : Nat) :
    selectConversation (get_or_create_conversation db uid).2 uid
      = some (get_or_create_conversation db uid).1 := by
  cases h : selectConversation db uid with
  | some c =>
    rw [get_or_create_found h]
    exact h
  | none =>
    rw [get_or_create_none h]
    unfold selectConversation at h
    have hnil : db.conversations.filter (fun c => c.user_id == uid) = [] :=
      (sortDescBy_eq_nil_iff (fun c => c.updated_at) _).mp (List.head?_eq_none_iff.mp h)
    unfold selectConversation
    simp [List.filter_append, hnil, sortDescBy, insertDescBy]

/-- A second sequential call of `get_or_create_conversation` is the identity:
it returns the same conversation and the same store. -/
theorem get_or_create_idem (db : DB) (uid : Nat) :
    get_or_create_conversation (get_or_create_conversation db uid).2 uid
      = get_or_create_conversation db uid := by
  rw [get_or_create_found (selectConversation_after db uid)]

theorem WF_messagesOf_pairwise {db : DB} (h : db.WF) (cid : Nat) :
    (messagesOf db cid).Pairwise (fun a b => a.created_at < b.created_at) :=
  h.1.sublist (List.filter_sublist _)

theorem WF_store_message {db : DB} (cid : Nat) (role content : String) (h : db.WF) :
    ((store_message db cid role content).2).WF := by
  unfold DB.WF at h
  cases hf : db.conversations.find? (fun x => x.id == cid) with
  | some c =>
    rw [store_message_found role content hf]
    unfold DB.WF
    dsimp only
    constructor
    · rw [List.pairwise_append]
      refine ⟨h.1, List.pairwise_singleton _ _, ?_⟩
      intro a ha b hb
      rw [List.mem_singleton] at hb
      subst hb
      exact h.2 a ha
    · intro m hm
      rw [List.mem_append] at hm
      rcases hm with hm | hm
      · have := h.2 m hm
        omega
      · rw [List.mem_singleton] at hm
        subst hm
        exact Nat.lt_succ_of_lt (Nat.lt_succ_self _)
  | none =>
    rw [store_message_not_found role content hf]
    unfold DB.WF
    dsimp only
    constructor
    · rw [List.pairwise_append]
      refine ⟨h.1, List.pairwise_singleton _ _, ?_⟩
      intro a ha b hb
      rw [List.mem_singleton] at hb
      subst hb
      exact h.2 a ha
    · intro m hm
      rw [List.mem_append] at hm
      rcases hm with hm | hm
      · have := h.2 m hm
        omega
      · rw [List.mem_singleton] at hm
        subst hm
        exact Nat.lt_succ_self _

theorem WF_get_or_create {db : DB} (uid : Nat) (h : db.WF) :
    ((get_or_create_conversation db uid).2).WF := by
  cases hs : selectConversation db uid with
  | some c =>
    rw [get_or_create_found hs]
    exact h
  | none =>
    rw [get_or_create_none hs]
    unfold DB.WF at h ⊢
    exact ⟨h.1, fun m hm => Nat.lt_succ_of_lt (h.2 m hm)⟩

/-- Bumping the timestamp of the conversation matching `cid` commutes with the
row lookup: the lookup afterwards returns the bumped row. -/
theorem find?_map_bump (cid tb : Nat) (l : List Conversation) (c : Conversation)
    (h : l.find? (fun x => x.id == cid) = some c) :
    (l.map (fun x => if x.id == cid then { x with updated_at := tb } else x)).find?
        (fun x => x.id == cid) = some { c with updated_at := tb } := by
  induction l with
  | nil => simp at h
  | cons x xs ih =>
    rw [List.map_cons]
    by_cases hx : (x.id == cid) = true
    · rw [show List.find? (fun y => y.id == cid) (x :: xs) = some x from by
        simp only [List.find?_cons, hx]] at h
      injection h with h
      subst h
      rw [if_pos hx]
      simp only [List.find?_cons, hx]
    · rw [show List.find? (fun y => y.id == cid) (x :: xs)
          = List.find? (fun y => y.id == cid) xs from by
        simp only [List.find?_cons, hx]] at h
      rw [if_neg hx]
      rw [show List.find? (fun y => y.id == cid)
            (x :: List.map (fun x => if x.id == cid then { x with updated_at := tb } else x) xs)
          = List.find? (fun y => y.id == cid)
              (List.map (fun x => if x.id == cid then { x with updated_at := tb } else x) xs) from by
        simp only [List.find?_cons, hx]]
      exact ih h

theorem get_or_create_messages (db : DB) (uid : Nat) :
    (get_or_create_conversation db uid).2.messages = db.messages := by
  cases h : selectConversation db uid with
  | some c => rw [get_or_create_found h]
  | none => rw [get_or_create_none h]

theorem store_message_messages (db : DB) (cid : Nat) (role content : String) :
    (store_message db cid role content).2.messages
      = db.messages ++ [(store_message db cid role content).1] := by
  cases h : db.conversations.find? (fun x => x.id == cid) with
  | some c => rw [store_message_found role content h]
  | none => rw [store_message_not_found role content h]

theorem store_message_fields (db : DB) (cid : Nat) (role content : String) :
    (store_message db cid role content).1
      = { id := db.nextId, conversation_id := cid, role := role,
          content := content, created_at := db.clock } := by
  cases h : db.conversations.find? (fun x => x.id == cid) with
  | some c => rw [store_message_found role content h]
  | none => rw [store_message_not_found role content h]

theorem messagesOf_store_self (db : DB) (cid : Nat) (role content : String) :
    messagesOf (store_message db cid role content).2 cid
      = messagesOf db cid ++ [(store_message db cid role content).1] := by
  unfold messagesOf
  rw [store_message_messages db cid role content, List.filter_append]
  congr 1
  rw [store_message_fields]
  simp

theorem storedUserMessage_fields (db : DB) (uid : Nat) (content : String) :
    storedUserMessage db uid content
      = { id := (get_or_create_conversation db uid).2.nextId,
          conversation_id := (turnConversation db uid).id, role := "user",
          content := content,
          created_at := (get_or_create_conversation db uid).2.clock } := by
  unfold storedUserMessage
  rw [store_message_fields]

theorem dbAfterUserStore_messages (db : DB) (uid : Nat) (content : String) :
    (dbAfterUserStore db uid content).messages
      = db.messages ++ [storedUserMessage db uid content] := by
  unfold dbAfterUserStore storedUserMessage
  rw [store_message_messages, get_or_create_messages]

theorem WF_dbAfterUserStore {db : DB} (uid : Nat) (content : String) (h : db.WF) :
    (dbAfterUserStore db uid content).WF := by
  unfold dbAfterUserStore
  exact WF_store_message _ _ _ (WF_get_or_create uid h)

/-- After the user message is stored, the window read back for the turn ends
with exactly that message. -/
theorem get_recent_after_user_store (db : DB) (uid : Nat) (content : String)
    (hWF : db.WF) :
    ∃ l₀, get_recent_messages (dbAfterUserStore db uid content)
        (turnConversation db uid).id 50
      = l₀ ++ [storedUserMessage db uid content] := by
  have h2 := WF_dbAfterUserStore uid content hWF
  have hm : messagesOf (dbAfterUserStore db uid content) (turnConversation db uid).id
      = messagesOf (get_or_create_conversation db uid).2 (turnConversation db uid).id
        ++ [storedUserMessage db uid content] := by
    unfold dbAfterUserStore storedUserMessage
    exact messagesOf_store_self _ _ _ _
  have hd := get_recent_eq_drop (dbAfterUserStore db uid content)
      (turnConversation db uid).id 50
      (WF_messagesOf_pairwise h2 (turnConversation db uid).id)
  rw [hd, hm]
  refine ⟨_, List.drop_append_of_le_length ?_⟩
  simp only [List.length_append, List.length_cons, List.length_nil]
  omega

/-- `process_user_message`, restated through the turn projections. -/
theorem process_user_message_eq (db : DB) (uid : Nat) (content : String)
    (agent : List RoleContent → Except PyException String) :
    process_user_message db uid content agent =
      match agent (turnHistory db uid content) with
      | .error e =>
        { result := .error e, db := dbAfterUserStore db uid content,
          agentCalls := [turnHistory db uid content] }
      | .ok rc =>
        { result := .ok (store_message (dbAfterUserStore db uid content)
              (turnConversation db uid).id "assistant" rc).1,
          db := (store_message (dbAfterUserStore db uid content)
              (turnConversation db uid).id "assistant" rc).2,
          agentCalls := [turnHistory db uid content] } := rfl

/-! ### Claim theorems -/

/-- C1: every submitted user message that enters `process_user_message`
triggers exactly one invocation of the Agent Gateway's `process_message`:
never zero on the success path, and never more than one whether the turn
succeeds or fails. -/
theorem agent_invoked_exactly_once (db : DB) (uid : Nat) (content : String)
    (agent : List RoleContent → Except PyException String) :
    (process_user_message db uid content agent).agentCalls.length = 1 := by
  simp only [process_user_message]
  split <;> rfl

/-- C2 counterexample: on a concrete store holding one conversation, a
`store_message` call leaves the owning conversation's `last_updated` different
from the stored message's creation time (the bump is a fresh, later clock
reading, not the message's timestamp). -/
theorem last_updated_not_creation_time :
    ((store_message dbOneConv 0 "user" "hi").2.conversations.head?.map
        (fun c => c.updated_at))
      ≠ some (store_message dbOneConv 0 "user" "hi").1.created_at := by
  decide

/-- C2 (amended): for an existing conversation, `store_message` appends the
message and bumps the owner's `last_updated` in the same atomic transition,
but the bump is a fresh clock reading taken after the message was stamped —
strictly later under the monotonic clock — not a copy of the message's
creation time. -/
theorem store_message_bump_amended (db : DB) (cid : Nat) (role content : String)
    (c : Conversation) (h : db.conversations.find? (fun x => x.id == cid) = some c) :
    (store_message db cid role content).2.messages
        = db.messages ++ [(store_message db cid role content).1]
    ∧ ∃ t, (store_message db cid role content).1.created_at < t
        ∧ (store_message db cid role content).2.conversations.find?
            (fun x => x.id == cid) = some { c with updated_at := t } := by
  rw [store_message_found role content h]
  refine ⟨rfl, db.clock + 1, Nat.lt_succ_self _, ?_⟩
  exact find?_map_bump cid (db.clock + 1) db.conversations c h

theorem store_message_bump_amended_witness :
    (store_message dbOneConv 0 "user" "hi").2.messages
        = dbOneConv.messages ++ [(store_message dbOneConv 0 "user" "hi").1]
    ∧ ∃ t, (store_message dbOneConv 0 "user" "hi").1.created_at < t
        ∧ (store_message dbOneConv 0 "user" "hi").2.conversations.find?
            (fun x => x.id == 0)
          = some { id := 0, user_id := 7, created_at := 0, updated_at := t } :=
  store_message_bump_amended dbOneConv 0 "user" "hi"
    { id := 0, user_id := 7, created_at := 0, updated_at := 0 } (by decide)

/-- C3: in every well-formed store (and the embedded operations preserve
well-formedness, which holds of the empty store), each conversation's
messages have strictly increasing creation times in storage order, so storage
order and chronological order coincide.  The `created_at` default lives in a
model file absent from the embedded sources and is modelled from the spec as
a monotonic clock reading. -/
theorem creation_time_strictly_increasing :
    (∀ db : DB, db.WF → ∀ cid : Nat,
        (messagesOf db cid).Pairwise (fun a b => a.created_at < b.created_at))
    ∧ (∀ (db : DB) (cid : Nat) (role content : String), db.WF →
        ((store_message db cid role content).2).WF)
    ∧ (∀ (db : DB) (uid : Nat), db.WF → ((get_or_create_conversation db uid).2).WF)
    ∧ emptyDB.WF := by
  refine ⟨fun db h cid => WF_messagesOf_pairwise h cid,
          fun db cid role content h => WF_store_message cid role content h,
          fun db uid h => WF_get_or_create uid h, ?_⟩
  decide

theorem creation_time_strictly_increasing_witness :
    (messagesOf dbThreeMsgs 0).Pairwise (fun a b => a.created_at < b.created_at)
    ∧ ((store_message dbThreeMsgs 0 "user" "d").2).WF :=
  ⟨creation_time_strictly_increasing.1 dbThreeMsgs (by decide) 0,
   creation_time_strictly_increasing.2.1 dbThreeMsgs 0 "user" "d" (by decide)⟩

/-- C4: on a well-formed store, `get_recent_messages` returns the window of
the most recent `limit` messages in ascending chronological order: it equals
the suffix of the conversation's chronological message list; when the
conversation holds at most `limit` messages it returns all of them; after
`limit + k` messages (k > 0) it returns exactly `limit` messages — the most
recent ones, oldest of that subset first. -/
theorem recent_messages_window (db : DB) (cid limit : Nat) (h : db.WF) :
    get_recent_messages db cid limit
        = (messagesOf db cid).drop ((messagesOf db cid).length - limit)
    ∧ (get_recent_messages db cid limit).Pairwise
        (fun a b => a.created_at < b.created_at)
    ∧ ((messagesOf db cid).length ≤ limit →
        get_recent_messages db cid limit = messagesOf db cid)
    ∧ (∀ k : Nat, 0 < k → (messagesOf db cid).length = limit + k →
        (get_recent_messages db cid limit).length = limit) := by
  have hp := WF_messagesOf_pairwise h cid
  have hd := get_recent_eq_drop db cid limit hp
  refine ⟨hd, ?_, ?_, ?_⟩
  · rw [hd]
    exact hp.sublist (List.drop_sublist _ _)
  · intro hle
    rw [hd, Nat.sub_eq_zero_of_le hle, List.drop_zero]
  · intro k hk hlen
    rw [hd, List.length_drop, hlen]
    omega

theorem recent_messages_window_witness :
    get_recent_messages dbThreeMsgs 0 2
        = (messagesOf dbThreeMsgs 0).drop ((messagesOf dbThreeMsgs 0).length - 2)
    ∧ (get_recent_messages dbThreeMsgs 0 2).length = 2 :=
  ⟨(recent_messages_window dbThreeMsgs 0 2 (by decide)).1,
   (recent_messages_window dbThreeMsgs 0 2 (by decide)).2.2.2 1 (by decide) (by decide)⟩

/-- C6: calling `get_or_create_conversation` twice sequentially (no
interleaving) returns a conversation with the same identifier both times, and
the second call creates no new conversation record. -/
theorem resolve_twice_same_conversation (db : DB) (uid : Nat) :
    (get_or_create_conversation (get_or_create_conversation db uid).2 uid).1.id
      = (get_or_create_conversation db uid).1.id
    ∧ (get_or_create_conversation (get_or_create_conversation db uid).2 uid).2.conversations
      = (get_or_create_conversation db uid).2.conversations := by
  rw [get_or_create_idem]
  exact ⟨rfl, rfl⟩

/-- C7 counterexample: for a user with no conversation, the read endpoint
GET /conversations does create a conversation record — the store does not
stay unchanged, contrary to the claim. -/
theorem read_view_creates_record :
    (get_conversation emptyDB 5).2.conversations.length = 1
    ∧ emptyDB.conversations.length = 0 := by
  decide

/-- C7 (amended): the read endpoint resolves through
`get_or_create_conversation`: for a user who already has a conversation the
read leaves the store unchanged, but for a user with none it creates exactly
one new conversation record — conversations are created lazily on the user's
first message or first read, whichever comes first. -/
theorem read_view_store_effect (db : DB) (uid : Nat) :
    (selectConversation db uid ≠ none → (get_conversation db uid).2 = db)
    ∧ (selectConversation db uid = none →
        (get_conversation db uid).2.conversations.length
          = db.conversations.length + 1) := by
  have h2 : (get_conversation db uid).2 = (get_or_create_conversation db uid).2 := rfl
  constructor
  · intro h
    cases hc : selectConversation db uid with
    | none => exact absurd hc h
    | some c => rw [h2, get_or_create_found hc]
  · intro h
    rw [h2, get_or_create_none h]
    simp

theorem read_view_store_effect_witness :
    (get_conversation dbOneConv 7).2 = dbOneConv
    ∧ (get_conversation emptyDB 5).2.conversations.length
        = emptyDB.conversations.length + 1 :=
  ⟨(read_view_store_effect dbOneConv 7).1 (by decide),
   (read_view_store_effect emptyDB 5).2 (by decide)⟩

/-- C10: `store_message` with a conversation id matching no conversation
record does not fail: it still persists and returns the message (an orphan),
leaves the conversation table untouched, and silently skips the
`last_updated` bump. -/
theorem store_message_orphan (db : DB) (cid : Nat) (role content : String)
    (h : db.conversations.find? (fun x => x.id == cid) = none) :
    (store_message db cid role content).2.messages
        = db.messages ++ [(store_message db cid role content).1]
    ∧ (store_message db cid role content).2.conversations = db.conversations
    ∧ (store_message db cid role content).1.conversation_id = cid
    ∧ (store_message db cid role content).1.role = role
    ∧ (store_message db cid role content).1.content = content := by
  rw [store_message_not_found role content h]
  exact ⟨rfl, rfl, rfl, rfl, rfl⟩

/-- The trace of agent invocations of a turn is always the one-element list
holding the turn's history, whatever the agent returns. -/
theorem process_agentCalls (db : DB) (uid : Nat) (content : String)
    (agent : List RoleContent → Except PyException String) :
    (process_user_message db uid content agent).agentCalls
      = [turnHistory db uid content] := by
  rw [process_user_message_eq]
  cases agent (turnHistory db uid content) <;> rfl

/-- C5: when the Agent Gateway call fails, the turn propagates the error, the
user's message stays stored (the store after the turn is exactly the store
after the user-message insert) and is visible in the read window, no
assistant message is stored for the turn, and the API caller receives an
error rather than a reply. -/
theorem failed_agent_keeps_user_message (db : DB) (uid : Nat) (content : String)
    (agent : List RoleContent → Except PyException String) (e : PyException)
    (hWF : db.WF) (hTrim : ¬ isBlank content = true)
    (hAgent : agent (turnHistory db uid content) = Except.error e) :
    (process_user_message db uid content agent).result = Except.error e
    ∧ (process_user_message db uid content agent).db.messages
        = db.messages ++ [storedUserMessage db uid content]
    ∧ (storedUserMessage db uid content).role = "user"
    ∧ (storedUserMessage db uid content).content = content
    ∧ storedUserMessage db uid content
        ∈ get_recent_messages (process_user_message db uid content agent).db
            (turnConversation db uid).id 50
    ∧ (chat db uid content agent).1
        = Except.error { status_code := 500, detail := excStr e } := by
  have hproc : process_user_message db uid content agent =
      { result := .error e, db := dbAfterUserStore db uid content,
        agentCalls := [turnHistory db uid content] } := by
    rw [process_user_message_eq, hAgent]
  obtain ⟨l₀, hl⟩ := get_recent_after_user_store db uid content hWF
  refine ⟨?_, ?_, ?_, ?_, ?_, ?_⟩
  · rw [hproc]
  · rw [hproc]
    exact dbAfterUserStore_messages db uid content
  · rw [storedUserMessage_fields]
  · rw [storedUserMessage_fields]
  · rw [hproc]
    show storedUserMessage db uid content
        ∈ get_recent_messages (dbAfterUserStore db uid content)
            (turnConversation db uid).id 50
    rw [hl]
    exact List.mem_append_right _ (List.mem_singleton.mpr rfl)
  · simp only [chat]
    rw [if_neg hTrim, hproc]
    rfl

theorem failed_agent_keeps_user_message_witness :
    (process_user_message emptyDB 7 "Hello"
        (fun _ => Except.error { kind := ErrorKind.agentError, msg := "timeout" })).result
      = Except.error { kind := ErrorKind.agentError, msg := "timeout" }
    ∧ (process_user_message emptyDB 7 "Hello"
        (fun _ => Except.error { kind := ErrorKind.agentError, msg := "timeout" })).db.messages
      = emptyDB.messages ++ [storedUserMessage emptyDB 7 "Hello"]
    ∧ (storedUserMessage emptyDB 7 "Hello").role = "user"
    ∧ (storedUserMessage emptyDB 7 "Hello").content = "Hello"
    ∧ storedUserMessage emptyDB 7 "Hello"
        ∈ get_recent_messages (process_user_message emptyDB 7 "Hello"
            (fun _ => Except.error { kind := ErrorKind.agentError, msg := "timeout" })).db
            (turnConversation emptyDB 7).id 50
    ∧ (chat emptyDB 7 "Hello"
        (fun _ => Except.error { kind := ErrorKind.agentError, msg := "timeout" })).1
      = Except.error
          (HTTPException.mk 500
            (excStr { kind := ErrorKind.agentError, msg := "timeout" })) :=
  failed_agent_keeps_user_message emptyDB 7 "Hello"
    (fun _ => Except.error { kind := ErrorKind.agentError, msg := "timeout" })
    { kind := ErrorKind.agentError, msg := "timeout" }
    (by decide) (by decide) rfl

/-- C8: the history handed to the agent is the role/content projection of the
recent messages read back after the user message was stored (in chronological
order), its last entry being the just-stored user message; and on a fresh
user's second submitted message the history is exactly the three entries:
prior user turn, prior assistant turn, new user message. -/
theorem agent_history_last_is_user (db : DB) (uid : Nat) (content : String)
    (agent : List RoleContent → Except PyException String) (hWF : db.WF) :
    (process_user_message db uid content agent).agentCalls
        = [turnHistory db uid content]
    ∧ turnHistory db uid content
        = (get_recent_messages (dbAfterUserStore db uid content)
            (turnConversation db uid).id 50).map (fun m => ⟨m.role, m.content⟩)
    ∧ (turnHistory db uid content).getLast?
        = some { role := "user", content := content }
    ∧ (process_user_message
          (process_user_message emptyDB 7 "Hello"
            (fun _ => Except.ok "Hi there")).db 7 "What is next?" agent).agentCalls
        = [[{ role := "user", content := "Hello" },
            { role := "assistant", content := "Hi there" },
            { role := "user", content := "What is next?" }]] := by
  obtain ⟨l₀, hl⟩ := get_recent_after_user_store db uid content hWF
  refine ⟨process_agentCalls db uid content agent, rfl, ?_, ?_⟩
  · unfold turnHistory
    rw [hl, List.map_append]
    simp [storedUserMessage_fields]
  · rw [process_agentCalls]
    decide

theorem agent_history_last_is_user_witness :
    (process_user_message dbThreeMsgs 0 "next"
        (fun _ => Except.ok "sure")).agentCalls
      = [turnHistory dbThreeMsgs 0 "next"]
    ∧ (turnHistory dbThreeMsgs 0 "next").getLast?
      = some { role := "user", content := "next" } :=
  ⟨(agent_history_last_is_user dbThreeMsgs 0 "next"
      (fun _ => Except.ok "sure") (by decide)).1,
   (agent_history_last_is_user dbThreeMsgs 0 "next"
      (fun _ => Except.ok "sure") (by decide)).2.2.1⟩

/-- C9 counterexample: two failures of different kinds carrying the same
message text produce identical caller-visible responses from the handler's
except branch, so the caller cannot distinguish the error kinds. -/
theorem error_kinds_indistinguishable :
    chatExceptBranch { kind := ErrorKind.agentError, msg := "boom" }
      = chatExceptBranch { kind := ErrorKind.postAgentPersistenceError, msg := "boom" }
    ∧ ErrorKind.agentError ≠ ErrorKind.postAgentPersistenceError :=
  ⟨rfl, by decide⟩

/-- C9 (amended): every failure is reported to the immediate caller — blank
input as HTTP 400 before any state change, any exception from the turn as the
except branch's HTTP 500 with `str(e)` as detail — and successes pass through
unchanged, so no failure is silently swallowed; but since the except branch
maps every exception to the constant status 500 with only its message string,
the four error kinds are not reliably distinguishable by the caller. -/
theorem failures_reported_uniform_500 :
    (∀ e : PyException,
        chatExceptBranch e = { status_code := 500, detail := excStr e })
    ∧ (∀ (db : DB) (uid : Nat) (content : String)
        (agent : List RoleContent → Except PyException String),
        isBlank content = true →
        (chat db uid content agent).1
          = Except.error { status_code := 400, detail := "Message cannot be empty" })
    ∧ (∀ (db : DB) (uid : Nat) (content : String)
        (agent : List RoleContent → Except PyException String) (e : PyException),
        ¬ isBlank content = true →
        (process_user_message db uid content agent).result = Except.error e →
        (chat db uid content agent).1
          = Except.error { status_code := 500, detail := excStr e })
    ∧ (∀ (db : DB) (uid : Nat) (content : String)
        (agent : List RoleContent → Except PyException String) (m : Message),
        ¬ isBlank content = true →
        (process_user_message db uid content agent).result = Except.ok m →
        (chat db uid content agent).1 = Except.ok m) := by
  refine ⟨fun e => rfl, ?_, ?_, ?_⟩
  · intro db uid content agent h
    simp only [chat]
    rw [if_pos h]
  · intro db uid content agent e h hres
    simp only [chat]
    rw [if_neg h, hres]
    rfl
  · intro db uid content agent m h hres
    simp only [chat]
    rw [if_neg h, hres]

theorem failures_reported_uniform_500_witness :
    (chat emptyDB 7 "  " (fun _ => Except.ok "x")).1
      = Except.error { status_code := 400, detail := "Message cannot be empty" }
    ∧ (chat emptyDB 7 "hi"
        (fun _ => Except.error { kind := ErrorKind.agentError, msg := "boom" })).1
      = Except.error { status_code := 500, detail := "boom" } :=
  ⟨failures_reported_uniform_500.2.1 emptyDB 7 "  " (fun _ => Except.ok "x") (by decide),
   failures_reported_uniform_500.2.2.1 emptyDB 7 "hi"
     (fun _ => Except.error { kind := ErrorKind.agentError, msg := "boom" })
     { kind := ErrorKind.agentError, msg := "boom" } (by decide) rfl⟩

theorem store_message_orphan_witness :
    (store_message emptyDB 3 "user" "hi").2.messages
        = emptyDB.messages ++ [(store_message emptyDB 3 "user" "hi").1]
    ∧ (store_message emptyDB 3 "user" "hi").2.conversations = emptyDB.conversations
    ∧ (store_message emptyDB 3 "user" "hi").1.conversation_id = 3
    ∧ (store_message emptyDB 3 "user" "hi").1.role = "user"
    ∧ (store_message emptyDB 3 "user" "hi").1.content = "hi" :=
  store_message_orphan emptyDB 3 "user" "hi" (by decide)

end HackathonChat
